import Mathlib

/-!
Verification of the realtime-lotto game-lifecycle handlers.

The repository's handlers are shallowly embedded as pure Lean functions over
an explicit database state `Lotto.DB`.  Timestamps are abstracted as natural
numbers supplied by the caller (`now`); SQL NULL timestamps are `Option.none`.
The ambient random pick inside `drawNumber` (`Math.floor(Math.random() * n)`,
always `< n` for `n > 0`) is abstracted as a caller-supplied index reduced
modulo the pool size.

Handler embeddings and their sources:
* `Lotto.drawNumber`   — server/src/handlers/draw_number.ts (in-memory mock store)
* `Lotto.joinGame`     — the joinGame handler (two separate autocommitted SQL
  statements, no transaction; a failure-injection parameter models a thrown
  database error at a given write statement)
* `Lotto.leaveGame`    — server/src/handlers/leave_game.ts (runs inside
  `db.transaction`, so an error persists nothing)
* `Lotto.startGame`    — the startGame handler (raw SQL implementation)
* `Lotto.checkWinners` — the SQL checkWinners implementation
* `Lotto.getGame`      — server/src/handlers/get_game.ts
* `Lotto.createGame`   — modelled from the spec (see its doc comment)
-/

namespace Lotto

/-- Game status enum from the zod schema: 'waiting' | 'in_progress' | 'completed'. -/
inductive GameStatus where
  | waiting
  | in_progress
  | completed
deriving DecidableEq, Repr

/-- The error taxonomy of the spec; each constructor corresponds to one
`throw new Error(...)` site in the handlers.  `StorageFailure` is not part of
the taxonomy: it models an infrastructure failure (e.g. lost connection)
thrown by an individual `db.execute` call, used to reason about atomicity. -/
inductive LottoError where
  | NotFound
  | InvalidState
  | GameFull
  | DuplicateRoomCode
  | InsufficientPlayers
  | AllNumbersDrawn
  | NoAvailableNumbers
  | PreconditionFailed
  | StorageFailure
deriving DecidableEq, Repr

/-- A row of the `games` table. -/
structure Game where
  id : Nat
  room_code : String
  status : GameStatus
  max_players : Nat
  current_players : Nat
  drawn_numbers : List Nat
  draw_order : Nat
  created_at : Nat
  started_at : Option Nat
  completed_at : Option Nat
deriving DecidableEq, Repr

/-- A row of the `players` table. -/
structure Player where
  id : Nat
  game_id : Nat
  player_name : String
  selected_numbers : List Nat
  is_winner : Bool
  joined_at : Nat
deriving DecidableEq, Repr

/-- A row of the `draw_events` table. -/
structure DrawEvent where
  id : Nat
  game_id : Nat
  drawn_number : Nat
  draw_position : Nat
  drawn_at : Nat
deriving DecidableEq, Repr

/-- The persistent state: the three tables plus the SERIAL id counters. -/
structure DB where
  games : List Game
  players : List Player
  draw_events : List DrawEvent
  nextGameId : Nat
  nextPlayerId : Nat
  nextDrawEventId : Nat
deriving DecidableEq, Repr

/-- Input of joinGame (room_code, player_name, selected_numbers). -/
structure JoinGameInput where
  room_code : String
  player_name : String
  selected_numbers : List Nat
deriving DecidableEq, Repr

/-- Replace the first game whose id matches `gid` (JS mutates the object found
by `mockGames.find`, leaving later duplicates untouched). -/
def replaceFirstGame : List Game → Nat → Game → List Game
  | [], _, _ => []
  | g :: gs, gid, newG =>
      if g.id = gid then newG :: gs else g :: replaceFirstGame gs gid newG

/-- `drawNumber` from draw_number.ts.  `randIdx % pool.length` stands for
`Math.floor(Math.random() * pool.length)`, which is always in range. -/
def drawNumber (db : DB) (gameId : Nat) (randIdx : Nat) (now : Nat) :
    Except LottoError (DrawEvent × DB) :=
  match db.games.find? (fun g => g.id == gameId) with
  | none => .error .NotFound
  | some game =>
    if game.status ≠ GameStatus.in_progress then .error .InvalidState
    else if game.draw_order ≥ 5 then .error .AllNumbersDrawn
    else
      let drawnNumbers := game.drawn_numbers
      let availableNumbers :=
        (((List.range 50).map (fun i => i + 1)).filter
          (fun num => ¬ drawnNumbers.contains num))
      if availableNumbers.length = 0 then .error .NoAvailableNumbers
      else
        let drawnNumber := availableNumbers.getD (randIdx % availableNumbers.length) 0
        let drawPosition := game.draw_order + 1
        let drawEvent : DrawEvent :=
          { id := db.nextDrawEventId, game_id := gameId,
            drawn_number := drawnNumber, draw_position := drawPosition,
            drawn_at := now }
        let updatedDrawnNumbers := drawnNumbers ++ [drawnNumber]
        let updatedDrawOrder := game.draw_order + 1
        -- drawn_numbers and draw_order are assigned unconditionally in the
        -- source; status/completed_at and the winner marks only on the 5th
        -- draw, hence the per-field and per-player conditions.
        let updatedGame :=
          { game with
            drawn_numbers := updatedDrawnNumbers,
            draw_order := updatedDrawOrder,
            status := if updatedDrawOrder = 5 then GameStatus.completed
                      else game.status,
            completed_at := if updatedDrawOrder = 5 then some now
                            else game.completed_at }
        let updatedPlayers :=
          db.players.map (fun p =>
            if updatedDrawOrder = 5 ∧ p.game_id = gameId ∧
               p.selected_numbers.all
                 (fun num => updatedDrawnNumbers.contains num) = true
            then { p with is_winner := true } else p)
        .ok (drawEvent,
          { db with
            games := replaceFirstGame db.games gameId updatedGame,
            players := updatedPlayers,
            draw_events := db.draw_events ++ [drawEvent],
            nextDrawEventId := db.nextDrawEventId + 1 })

/-- `joinGame` from the SQL handler.  The handler runs its two writes —
`INSERT INTO players ...` (statement 0) and
`UPDATE games SET current_players = current_players + 1 ...` (statement 1) —
as separate autocommitted `db.execute` calls with no enclosing transaction.
`failAt = some k` models a database error thrown by write statement `k`
(statements before `k` stay persisted); `failAt = none` is a failure-free run.
The result pair carries the state as persisted when the call returns. -/
def joinGame (db : DB) (input : JoinGameInput) (now : Nat) (failAt : Option Nat) :
    Except LottoError Player × DB :=
  match db.games.find? (fun g => g.room_code == input.room_code) with
  | none => (.error .NotFound, db)
  | some game =>
    if game.status ≠ GameStatus.waiting then (.error .InvalidState, db)
    else if game.current_players ≥ game.max_players then (.error .GameFull, db)
    else if failAt = some 0 then (.error .StorageFailure, db)
    else
      let newPlayer : Player :=
        { id := db.nextPlayerId, game_id := game.id,
          player_name := input.player_name,
          selected_numbers := input.selected_numbers,
          is_winner := false, joined_at := now }
      let db1 := { db with players := db.players ++ [newPlayer],
                           nextPlayerId := db.nextPlayerId + 1 }
      if failAt = some 1 then (.error .StorageFailure, db1)
      else
        let db2 := { db1 with games := db1.games.map (fun g =>
          if g.id = game.id then { g with current_players := g.current_players + 1 }
          else g) }
        (.ok newPlayer, db2)

/-- `leaveGame` from leave_game.ts.  The body runs inside `db.transaction`,
so an error leaves no persisted effect: errors carry no state and `.ok`
carries the committed state.  `Math.max(0, current_players - 1)` is Nat
truncated subtraction. -/
def leaveGame (db : DB) (gameId : Nat) (playerId : Nat) :
    Except LottoError (Bool × DB) :=
  match db.games.find? (fun g => g.id == gameId) with
  | none => .error .NotFound
  | some game =>
    match db.players.find? (fun p => p.id == playerId && p.game_id == gameId) with
    | none => .error .NotFound
    | some _ =>
      if game.status ≠ GameStatus.waiting then .error .InvalidState
      else
        let players1 := db.players.filter (fun p => p.id ≠ playerId)
        let newCurrentPlayers := game.current_players - 1
        let games1 := db.games.map (fun g =>
          if g.id = gameId then { g with current_players := newCurrentPlayers } else g)
        let games2 :=
          if newCurrentPlayers = 0 then games1.filter (fun g => g.id ≠ gameId)
          else games1
        .ok (true, { db with games := games2, players := players1 })

/-- `startGame` from the raw-SQL implementation.  The only write is the final
UPDATE, so the state component equals the input state on every error path. -/
def startGame (db : DB) (room_code : String) (now : Nat) :
    Except LottoError Game × DB :=
  match db.games.find? (fun g => g.room_code == room_code) with
  | none => (.error .NotFound, db)
  | some game =>
    if game.status ≠ GameStatus.waiting then (.error .InvalidState, db)
    else
      let currentPlayers := (db.players.filter (fun p => p.game_id == game.id)).length
      if currentPlayers < 2 then (.error .InsufficientPlayers, db)
      else
        let updatedGame :=
          { game with status := GameStatus.in_progress,
                      started_at := some now,
                      current_players := currentPlayers,
                      draw_order := 0, drawn_numbers := [] }
        (.ok updatedGame,
         { db with games := db.games.map (fun g =>
             if g.id = game.id then updatedGame else g) })

/-- The winning test of the SQL `checkWinners`: players whose
`selected_numbers` does not have length 5 are skipped (cannot win); otherwise
a player wins when every selected number is in the drawn set. -/
def playerWins (drawn : List Nat) (p : Player) : Bool :=
  p.selected_numbers.length == 5 &&
    p.selected_numbers.all (fun num => drawn.contains num)

/-- `checkWinners` from the SQL implementation.  Note: the precondition check
is `drawnNumbers.length !== 5` — distinctness of the drawn numbers is not
verified.  The per-winner `UPDATE players SET is_winner = true WHERE id = ...`
statements and the final unconditional game UPDATE are folded into one state;
the state component equals the input state on the error paths (no write has
happened yet there). -/
def checkWinners (db : DB) (gameId : Nat) (now : Nat) :
    Except LottoError (List Player) × DB :=
  match db.games.find? (fun g => g.id == gameId) with
  | none => (.error .NotFound, db)
  | some game =>
    let drawnNumbers := game.drawn_numbers
    if drawnNumbers.length ≠ 5 then (.error .PreconditionFailed, db)
    else
      let gamePlayers := db.players.filter (fun p => p.game_id == gameId)
      let winners := (gamePlayers.filter (playerWins drawnNumbers)).map
        (fun p => { p with is_winner := true })
      let winnerIds := winners.map (fun w => w.id)
      let players1 := db.players.map (fun p =>
        if winnerIds.contains p.id then { p with is_winner := true } else p)
      let games1 := db.games.map (fun g =>
        if g.id = gameId then
          { g with status := GameStatus.completed, completed_at := some now }
        else g)
      (.ok winners, { db with players := players1, games := games1 })

/-- `getGame` from get_game.ts: game by room_code, its players in insertion
(joined_at) order, and the latest draw event or none. -/
def getGame (db : DB) (room_code : String) :
    Except LottoError (Game × List Player × Option DrawEvent) :=
  match db.games.find? (fun g => g.room_code == room_code) with
  | none => .error .NotFound
  | some game =>
    let players := db.players.filter (fun p => p.game_id == game.id)
    let drawEvents := db.draw_events.filter (fun e => e.game_id == game.id)
    .ok (game, players, drawEvents.getLast?)

/-- Modelled from the spec: the repository's create_game.ts contains only a
placeholder declaration (no duplicate check, nothing persisted), so the real
`createGame` is missing from the source.  Following spec §4.1: fails with
`DuplicateRoomCode` if an existing game already uses that code, otherwise
creates a game with status=waiting, current_players=0, drawn_numbers=[],
draw_order=0, started_at=completed_at=null and persists it.  The error path
persists nothing. -/
def createGame (db : DB) (room_code : String) (max_players : Nat) (now : Nat) :
    Except LottoError Game × DB :=
  if db.games.any (fun g => g.room_code == room_code) then
    (.error .DuplicateRoomCode, db)
  else
    let game : Game :=
      { id := db.nextGameId, room_code := room_code, status := GameStatus.waiting,
        max_players := max_players, current_players := 0,
        drawn_numbers := [], draw_order := 0,
        created_at := now, started_at := none, completed_at := none }
    (.ok game, { db with games := db.games ++ [game],
                         nextGameId := db.nextGameId + 1 })

/-! ### Concrete fixtures used by the witness theorems -/

/-- A waiting game in an otherwise empty store, room code ROOM01. -/
def dbRoom : DB :=
  { games := [{ id := 1, room_code := "ROOM01", status := GameStatus.waiting,
                max_players := 10, current_players := 0,
                drawn_numbers := [], draw_order := 0,
                created_at := 0, started_at := none, completed_at := none }],
    players := [], draw_events := [],
    nextGameId := 2, nextPlayerId := 1, nextDrawEventId := 1 }

/-- Join request of player A for room ROOM01. -/
def joinA : JoinGameInput :=
  { room_code := "ROOM01", player_name := "A", selected_numbers := [1, 2, 3, 4, 5] }

/-- A waiting game whose stored counter (0) is below max_players although
three player records already exist for it. -/
def dbOverfull : DB :=
  { games := [{ id := 1, room_code := "OVER01", status := GameStatus.waiting,
                max_players := 2, current_players := 0,
                drawn_numbers := [], draw_order := 0,
                created_at := 0, started_at := none, completed_at := none }],
    players :=
      [{ id := 1, game_id := 1, player_name := "P1",
         selected_numbers := [1, 2, 3, 4, 5], is_winner := false, joined_at := 1 },
       { id := 2, game_id := 1, player_name := "P2",
         selected_numbers := [6, 7, 8, 9, 10], is_winner := false, joined_at := 2 },
       { id := 3, game_id := 1, player_name := "P3",
         selected_numbers := [11, 12, 13, 14, 15], is_winner := false, joined_at := 3 }],
    draw_events := [], nextGameId := 2, nextPlayerId := 4, nextDrawEventId := 1 }

/-- An in-progress game whose drawn_numbers has length 5 but only 4 distinct
values — `checkWinners` accepts it. -/
def dbDupDrawn : DB :=
  { games := [{ id := 1, room_code := "DUP001", status := GameStatus.in_progress,
                max_players := 10, current_players := 1,
                drawn_numbers := [1, 1, 2, 3, 4], draw_order := 5,
                created_at := 0, started_at := some 1, completed_at := none }],
    players :=
      [{ id := 1, game_id := 1, player_name := "P1",
         selected_numbers := [1, 2, 3, 4, 5], is_winner := false, joined_at := 1 }],
    draw_events := [], nextGameId := 2, nextPlayerId := 2, nextDrawEventId := 1 }

/-- The finished game of the checkWinners test: drawn [1,15,23,34,42], two
winning selections (one in a different order) and one near miss. -/
def dbWinners : DB :=
  { games := [{ id := 1, room_code := "TEST001", status := GameStatus.in_progress,
                max_players := 10, current_players := 3,
                drawn_numbers := [1, 15, 23, 34, 42], draw_order := 5,
                created_at := 0, started_at := some 1, completed_at := none }],
    players :=
      [{ id := 1, game_id := 1, player_name := "Winner1",
         selected_numbers := [1, 15, 23, 34, 42], is_winner := false, joined_at := 1 },
       { id := 2, game_id := 1, player_name := "Winner2",
         selected_numbers := [42, 1, 34, 15, 23], is_winner := false, joined_at := 2 },
       { id := 3, game_id := 1, player_name := "Loser1",
         selected_numbers := [1, 15, 23, 34, 43], is_winner := false, joined_at := 3 }],
    draw_events := [], nextGameId := 2, nextPlayerId := 4, nextDrawEventId := 1 }

/-- A waiting game with a single player, about to be emptied by leaveGame. -/
def dbSolo : DB :=
  { games := [{ id := 1, room_code := "SOLO01", status := GameStatus.waiting,
                max_players := 10, current_players := 1,
                drawn_numbers := [], draw_order := 0,
                created_at := 0, started_at := none, completed_at := none }],
    players :=
      [{ id := 1, game_id := 1, player_name := "Solo",
         selected_numbers := [1, 2, 3, 4, 5], is_winner := false, joined_at := 1 }],
    draw_events := [], nextGameId := 2, nextPlayerId := 2, nextDrawEventId := 1 }

/-- A waiting game whose stored counter equals max_players although no player
records exist for it. -/
def dbPhantom : DB :=
  { games := [{ id := 1, room_code := "FULL01", status := GameStatus.waiting,
                max_players := 2, current_players := 2,
                drawn_numbers := [], draw_order := 0,
                created_at := 0, started_at := none, completed_at := none }],
    players := [], draw_events := [],
    nextGameId := 2, nextPlayerId := 1, nextDrawEventId := 1 }

end Lotto

namespace Lotto

/-! ### Helper lemmas about drawNumber's number pool and game update -/

/-- After replacing the first game with the matched id, `find?` on that id
returns the replacement. -/
theorem find?_replaceFirstGame (l : List Game) (gid : Nat) (newG : Game)
    (hnew : (newG.id == gid) = true)
    (h : (l.find? (fun g => g.id == gid)).isSome = true) :
    (replaceFirstGame l gid newG).find? (fun g => g.id == gid) = some newG := by
  induction l with
  | nil => simp [List.find?] at h
  | cons g gs ih =>
    by_cases hg : g.id = gid
    · simp only [replaceFirstGame, if_pos hg]
      exact List.find?_cons_of_pos _ hnew
    · have hgb : ¬ ((fun g => g.id == gid) g = true) := by simpa using hg
      simp only [replaceFirstGame, if_neg hg]
      rw [List.find?_cons_of_neg (replaceFirstGame gs gid newG) hgb]
      rw [List.find?_cons_of_neg gs hgb] at h
      exact ih h

/-- The pool {1..50} minus a duplicate-free drawn list of length < 50 is
nonempty. -/
theorem availableNumbers_ne_nil (drawn : List Nat) (hlt : drawn.length < 50) :
    ¬ ((((List.range 50).map (fun i => i + 1)).filter
        (fun num => ¬ drawn.contains num)).length = 0) := by
  intro h0
  rw [List.length_eq_zero] at h0
  have hnd50 : ((List.range 50).map (fun i => i + 1)).Nodup :=
    List.Nodup.map (add_left_injective 1) (List.nodup_range 50)
  have hsub : ((List.range 50).map (fun i => i + 1)) ⊆ drawn := by
    intro a ha
    by_cases hc : drawn.contains a = true
    · exact List.elem_iff.mp hc
    · exfalso
      have hmem : a ∈ ((List.range 50).map (fun i => i + 1)).filter
          (fun num => ¬ drawn.contains num) :=
        List.mem_filter.mpr ⟨ha, by simpa using hc⟩
      rw [h0] at hmem
      cases hmem
  have h50 : (50 : Nat) ≤ drawn.length := by
    have hlen : ((List.range 50).map (fun i => i + 1)).length = 50 := by simp
    calc (50 : Nat) = ((List.range 50).map (fun i => i + 1)).length := hlen.symm
    _ ≤ drawn.length := (hnd50.subperm hsub).length_le
  omega

/-! ### Claim theorems -/

/-- C4: when an existing game already uses the room code, `createGame` fails
with `DuplicateRoomCode` and persists nothing; when no game uses the code it
returns a new game with status waiting, current_players 0, drawn_numbers [],
draw_order 0 and null started_at/completed_at. -/
theorem createGame_spec (db : DB) (code : String) (maxP now : Nat) :
    ((∃ g ∈ db.games, g.room_code = code) →
        createGame db code maxP now = (.error .DuplicateRoomCode, db)) ∧
    ((∀ g ∈ db.games, g.room_code ≠ code) →
      ∃ game db2, createGame db code maxP now = (.ok game, db2) ∧
        game.status = GameStatus.waiting ∧ game.current_players = 0 ∧
        game.drawn_numbers = [] ∧ game.draw_order = 0 ∧
        game.started_at = none ∧ game.completed_at = none ∧
        db2.games = db.games ++ [game]) := by
  constructor
  · rintro ⟨g, hg, hcode⟩
    have hany : db.games.any (fun g => g.room_code == code) = true := by
      rw [List.any_eq_true]
      exact ⟨g, hg, by simp [hcode]⟩
    simp [createGame, hany]
  · intro h
    have hany : db.games.any (fun g => g.room_code == code) = false := by
      rw [Bool.eq_false_iff]
      intro hcontra
      rw [List.any_eq_true] at hcontra
      obtain ⟨g, hg, hcode⟩ := hcontra
      exact h g hg (by simpa using hcode)
    simp only [createGame, hany, Bool.false_eq_true, if_false]
    exact ⟨_, _, rfl, rfl, rfl, rfl, rfl, rfl, rfl, rfl⟩

/-- C6: on a failure-free run, `joinGame` fails `NotFound` for an absent room
code, `InvalidState` for a non-waiting game, `GameFull` when the stored
counter has reached max_players — each without side effect (state unchanged) —
and otherwise appends a Player with is_winner = false and bumps
current_players of the game row by exactly 1. -/
theorem joinGame_cases (db : DB) (input : JoinGameInput) (now : Nat) :
    (db.games.find? (fun g => g.room_code == input.room_code) = none →
        joinGame db input now none = (.error .NotFound, db)) ∧
    (∀ game, db.games.find? (fun g => g.room_code == input.room_code) = some game →
      (game.status ≠ GameStatus.waiting →
          joinGame db input now none = (.error .InvalidState, db)) ∧
      (game.status = GameStatus.waiting →
        game.max_players ≤ game.current_players →
          joinGame db input now none = (.error .GameFull, db)) ∧
      (game.status = GameStatus.waiting →
        game.current_players < game.max_players →
        ∃ p db2, joinGame db input now none = (.ok p, db2) ∧
          p.is_winner = false ∧ p.game_id = game.id ∧
          p.player_name = input.player_name ∧
          p.selected_numbers = input.selected_numbers ∧
          db2.players = db.players ++ [p] ∧
          db2.games = db.games.map (fun g =>
            if g.id = game.id then
              { g with current_players := g.current_players + 1 }
            else g))) := by
  constructor
  · intro hnone
    simp only [joinGame, hnone]
  · intro game hfind
    refine ⟨?_, ?_, ?_⟩
    · intro hst
      simp only [joinGame, hfind, if_pos hst]
    · intro hst hge
      rw [joinGame, hfind]
      simp only [hst, ne_eq, not_true_eq_false, if_false, ge_iff_le, if_pos hge]
    · intro hst hlt
      rw [joinGame, hfind]
      simp only [hst, ne_eq, not_true_eq_false, if_false, ge_iff_le,
        if_neg (Nat.not_le_of_lt hlt)]
      exact ⟨_, _, rfl, rfl, rfl, rfl, rfl, rfl, rfl⟩

/-- Witness for C6: in `dbRoom` (waiting, 0 of 10 players) player A joins
successfully; in a full waiting game the join fails `GameFull` with the
state unchanged. -/
theorem joinGame_cases_witness :
    (∃ p db2, joinGame dbRoom joinA 3 none = (.ok p, db2) ∧
      p.is_winner = false ∧ p.game_id = (dbRoom.games.get ⟨0, by decide⟩).id ∧
      p.player_name = joinA.player_name ∧
      p.selected_numbers = joinA.selected_numbers ∧
      db2.players = dbRoom.players ++ [p] ∧
      db2.games = dbRoom.games.map (fun g =>
        if g.id = (dbRoom.games.get ⟨0, by decide⟩).id then
          { g with current_players := g.current_players + 1 }
        else g)) :=
  ((joinGame_cases dbRoom joinA 3).2 (dbRoom.games.get ⟨0, by decide⟩)
      (by decide)).2.2 (by decide) (by decide)

/-- C9: fullness is decided solely from the stored current_players field.
A waiting game whose stored counter is below max_players admits a join no
matter how many player records exist (hypothesis on the live count is never
consulted), and a stored counter at max_players yields `GameFull` even with
no player records at all. -/
theorem joinGame_fullness_from_stored_counter (db : DB) (input : JoinGameInput)
    (now : Nat) (game : Game)
    (hfind : db.games.find? (fun g => g.room_code == input.room_code) = some game)
    (hst : game.status = GameStatus.waiting) :
    (game.current_players < game.max_players →
      game.max_players ≤ (db.players.filter (fun p => p.game_id == game.id)).length →
      ∃ p db2, joinGame db input now none = (.ok p, db2)) ∧
    (game.max_players ≤ game.current_players →
      db.players = [] →
      joinGame db input now none = (.error .GameFull, db)) := by
  constructor
  · intro hlt _hlive
    rw [joinGame, hfind]
    simp only [hst, ne_eq, not_true_eq_false, if_false, ge_iff_le,
      if_neg (Nat.not_le_of_lt hlt)]
    exact ⟨_, _, rfl⟩
  · intro hge _hempty
    rw [joinGame, hfind]
    simp only [hst, ne_eq, not_true_eq_false, if_false, ge_iff_le, if_pos hge]

/-- Witness for C9: in `dbOverfull` (stored 0 of 2, but 3 live player rows)
the join succeeds; in `dbPhantom` (stored 2 of 2, no player rows) the join
fails `GameFull`. -/
theorem joinGame_fullness_witness :
    (∃ p db2,
      joinGame dbOverfull
        { room_code := "OVER01", player_name := "D",
          selected_numbers := [16, 17, 18, 19, 20] } 9 none = (.ok p, db2)) ∧
    joinGame dbPhantom
        { room_code := "FULL01", player_name := "E",
          selected_numbers := [1, 2, 3, 4, 5] } 9 none =
      (.error .GameFull, dbPhantom) :=
  ⟨(joinGame_fullness_from_stored_counter dbOverfull
      { room_code := "OVER01", player_name := "D",
        selected_numbers := [16, 17, 18, 19, 20] } 9
      (dbOverfull.games.get ⟨0, by decide⟩) (by decide) (by decide)).1
      (by decide) (by decide),
   (joinGame_fullness_from_stored_counter dbPhantom
      { room_code := "FULL01", player_name := "E",
        selected_numbers := [1, 2, 3, 4, 5] } 9
      (dbPhantom.games.get ⟨0, by decide⟩) (by decide) (by decide)).2
      (by decide) (by decide)⟩

/-- C5 counterexample: in `dbRoom`, a database failure on joinGame's second
write statement (the counter UPDATE) returns an error although the player
record from the first statement (the INSERT) is already persisted, while
current_players is still 0: an observable state with the insertion but not
the increment, so the two effects are not atomic as a unit. -/
theorem joinGame_not_atomic_counterexample :
    (joinGame dbRoom joinA 3 (some 1)).1 = .error .StorageFailure ∧
    ((joinGame dbRoom joinA 3 (some 1)).2.players.filter
      (fun p => p.game_id == 1)).length = 1 ∧
    (∀ g ∈ (joinGame dbRoom joinA 3 (some 1)).2.games,
      g.current_players = 0) :=
  ⟨rfl, by decide, by decide⟩

/-- C5 (amended): joinGame runs the player INSERT and the current_players
UPDATE as two separate autocommitted statements with no enclosing
transaction.  A failure-free run persists both effects; a failure on the
UPDATE (after the INSERT) persists the new player while every game row is
left unchanged. -/
theorem joinGame_two_statements (db : DB) (input : JoinGameInput) (now : Nat)
    (game : Game)
    (hfind : db.games.find? (fun g => g.room_code == input.room_code) = some game)
    (hst : game.status = GameStatus.waiting)
    (hlt : game.current_players < game.max_players) :
    (∃ p db2, joinGame db input now none = (.ok p, db2) ∧
      db2.players = db.players ++ [p] ∧
      db2.games = db.games.map (fun g =>
        if g.id = game.id then
          { g with current_players := g.current_players + 1 }
        else g)) ∧
    (∃ p db1, joinGame db input now (some 1) = (.error .StorageFailure, db1) ∧
      db1.players = db.players ++ [p] ∧ db1.games = db.games) := by
  constructor
  · rw [joinGame, hfind]
    simp only [hst, ne_eq, not_true_eq_false, if_false, ge_iff_le,
      if_neg (Nat.not_le_of_lt hlt)]
    exact ⟨_, _, rfl, rfl, rfl⟩
  · rw [joinGame, hfind]
    simp only [hst, ne_eq, not_true_eq_false, if_false, ge_iff_le,
      if_neg (Nat.not_le_of_lt hlt)]
    exact ⟨_, _, rfl, rfl, rfl⟩

/-- Witness for the amended C5 at `dbRoom`/`joinA`. -/
theorem joinGame_two_statements_witness :
    (∃ p db2, joinGame dbRoom joinA 3 none = (.ok p, db2) ∧
      db2.players = dbRoom.players ++ [p] ∧
      db2.games = dbRoom.games.map (fun g =>
        if g.id = (dbRoom.games.get ⟨0, by decide⟩).id then
          { g with current_players := g.current_players + 1 }
        else g)) ∧
    (∃ p db1, joinGame dbRoom joinA 3 (some 1) = (.error .StorageFailure, db1) ∧
      db1.players = dbRoom.players ++ [p] ∧ db1.games = dbRoom.games) :=
  joinGame_two_statements dbRoom joinA 3 (dbRoom.games.get ⟨0, by decide⟩)
    (by decide) (by decide) (by decide)

/-- C8: for a waiting game, `startGame` fails `InsufficientPlayers` when the
live count of player records is below 2 and changes nothing (so the game is
still waiting); with at least 2 live player records it sets status
in_progress, a non-null started_at, current_players to the recomputed live
count, and resets draw_order to 0 and drawn_numbers to []. -/
theorem startGame_spec (db : DB) (code : String) (now : Nat) (game : Game)
    (hfind : db.games.find? (fun g => g.room_code == code) = some game)
    (hst : game.status = GameStatus.waiting) :
    ((db.players.filter (fun p => p.game_id == game.id)).length < 2 →
      startGame db code now = (.error .InsufficientPlayers, db)) ∧
    (2 ≤ (db.players.filter (fun p => p.game_id == game.id)).length →
      ∃ g2 db2, startGame db code now = (.ok g2, db2) ∧
        g2.status = GameStatus.in_progress ∧ g2.started_at = some now ∧
        g2.current_players =
          (db.players.filter (fun p => p.game_id == game.id)).length ∧
        g2.draw_order = 0 ∧ g2.drawn_numbers = [] ∧
        db2.games = db.games.map (fun g => if g.id = game.id then g2 else g)) := by
  constructor
  · intro hlt
    rw [startGame, hfind]
    simp only [hst, ne_eq, not_true_eq_false, if_false, if_pos hlt]
  · intro hge
    rw [startGame, hfind]
    simp only [hst, ne_eq, not_true_eq_false, if_false,
      if_neg (Nat.not_lt.mpr hge)]
    exact ⟨_, _, rfl, rfl, rfl, rfl, rfl, rfl, rfl⟩

/-- Witness for C8: starting `dbOverfull`'s game (3 live players) succeeds
with current_players recomputed to 3; starting `dbRoom`'s game (0 live
players) fails `InsufficientPlayers` with the state unchanged. -/
theorem startGame_spec_witness :
    (∃ g2 db2, startGame dbOverfull "OVER01" 11 = (.ok g2, db2) ∧
      g2.status = GameStatus.in_progress ∧ g2.started_at = some 11 ∧
      g2.current_players =
        (dbOverfull.players.filter
          (fun p => p.game_id == (dbOverfull.games.get ⟨0, by decide⟩).id)).length ∧
      g2.draw_order = 0 ∧ g2.drawn_numbers = [] ∧
      db2.games = dbOverfull.games.map (fun g =>
        if g.id = (dbOverfull.games.get ⟨0, by decide⟩).id then g2 else g)) ∧
    startGame dbRoom "ROOM01" 11 = (.error .InsufficientPlayers, dbRoom) :=
  ⟨(startGame_spec dbOverfull "OVER01" 11 (dbOverfull.games.get ⟨0, by decide⟩)
      (by decide) (by decide)).2 (by decide),
   (startGame_spec dbRoom "ROOM01" 11 (dbRoom.games.get ⟨0, by decide⟩)
      (by decide) (by decide)).1 (by decide)⟩

/-- C3 counterexample: the game of `dbDupDrawn` has drawn_numbers
[1,1,2,3,4] — length 5 but only 4 distinct values, so it does not contain
exactly 5 distinct numbers — yet `checkWinners` does not fail with
`PreconditionFailed`: it returns a winners list, because the implementation
only checks `drawnNumbers.length !== 5` and never verifies distinctness. -/
theorem checkWinners_no_distinctness_counterexample :
    (∀ game ∈ dbDupDrawn.games, game.drawn_numbers.dedup.length = 4) ∧
    (∃ winners, (checkWinners dbDupDrawn 1 7).1 = .ok winners) :=
  ⟨by decide, ⟨_, rfl⟩⟩

/-- C3 (amended): `checkWinners` fails `NotFound` when no game has the id,
fails `PreconditionFailed` when the game's drawn_numbers does not have
length exactly 5 (distinctness is not checked), and otherwise returns
exactly the winning players of the game — those whose 5 selected numbers
all lie in the drawn set — each persisted with is_winner = true. -/
theorem checkWinners_cases (db : DB) (gameId now : Nat) :
    (db.games.find? (fun g => g.id == gameId) = none →
        checkWinners db gameId now = (.error .NotFound, db)) ∧
    (∀ game, db.games.find? (fun g => g.id == gameId) = some game →
      (game.drawn_numbers.length ≠ 5 →
          checkWinners db gameId now = (.error .PreconditionFailed, db)) ∧
      (game.drawn_numbers.length = 5 →
        ∃ db2, checkWinners db gameId now =
            (.ok (((db.players.filter (fun p => p.game_id == gameId)).filter
                (playerWins game.drawn_numbers)).map
                  (fun p => { p with is_winner := true })), db2) ∧
          (∀ p ∈ db2.players,
            p.id ∈ ((db.players.filter (fun p => p.game_id == gameId)).filter
                (playerWins game.drawn_numbers)).map (fun p => p.id) →
              p.is_winner = true) ∧
          (∀ g2 ∈ db2.games, g2.id = gameId →
            g2.status = GameStatus.completed ∧ g2.completed_at = some now))) := by
  refine ⟨fun hnone => by simp only [checkWinners, hnone], ?_⟩
  intro game hfind
  constructor
  · intro hne
    rw [checkWinners, hfind]
    simp only [if_pos hne]
  · intro hlen
    rw [checkWinners, hfind]
    simp only [hlen, ne_eq, not_true_eq_false, if_false]
    refine ⟨_, rfl, ?_, ?_⟩
    · intro p hp hid
      rw [List.mem_map] at hp
      obtain ⟨q, hq, rfl⟩ := hp
      by_cases hc :
        ((((db.players.filter (fun p => p.game_id == gameId)).filter
            (playerWins game.drawn_numbers)).map
              (fun p => { p with is_winner := true })).map
          (fun w => w.id)).contains q.id = true
      · simp only [if_pos hc]
      · exfalso
        rw [if_neg hc] at hid
        exact hc (List.elem_iff.mpr (by rw [List.map_map]; exact hid))
    · intro g2 hg2 hid
      rw [List.mem_map] at hg2
      obtain ⟨g1, hg1, rfl⟩ := hg2
      by_cases hc : g1.id = gameId
      · rw [if_pos hc]
        exact ⟨rfl, rfl⟩
      · rw [if_neg hc] at hid ⊢
        exact absurd hid hc

/-- Witness for the amended C3 at `dbWinners`: the two exact-match players
are returned as winners and persisted with is_winner = true, and the game
row becomes completed with a non-null completed_at. -/
theorem checkWinners_cases_witness :
    ∃ db2, checkWinners dbWinners 1 9 =
        (.ok (((dbWinners.players.filter (fun p => p.game_id == 1)).filter
            (playerWins (dbWinners.games.get ⟨0, by decide⟩).drawn_numbers)).map
              (fun p => { p with is_winner := true })), db2) ∧
      (∀ p ∈ db2.players,
        p.id ∈ ((dbWinners.players.filter (fun p => p.game_id == 1)).filter
            (playerWins (dbWinners.games.get ⟨0, by decide⟩).drawn_numbers)).map
              (fun p => p.id) →
          p.is_winner = true) ∧
      (∀ g2 ∈ db2.games, g2.id = 1 →
        g2.status = GameStatus.completed ∧ g2.completed_at = some 9) :=
  ((checkWinners_cases dbWinners 1 9).2 (dbWinners.games.get ⟨0, by decide⟩)
      (by decide)).2 (by decide)

/-- C7: for a waiting game and a player of that game, `leaveGame` deletes the
player and decrements the game's current_players by 1 floored at 0 (Nat
truncated subtraction); when the resulting count is 0 the game row is deleted
as well, and — room codes being unique — a subsequent `getGame` on its
room_code fails `NotFound`. -/
theorem leaveGame_spec (db : DB) (gameId playerId : Nat) (game : Game)
    (hg : db.games.find? (fun g => g.id == gameId) = some game)
    (hp : (db.players.find? (fun p => p.id == playerId && p.game_id == gameId)).isSome
      = true)
    (hw : game.status = GameStatus.waiting) :
    ∃ db2, leaveGame db gameId playerId = .ok (true, db2) ∧
      db2.players = db.players.filter (fun p => p.id ≠ playerId) ∧
      (∀ g2 ∈ db2.games, g2.id = gameId →
        g2.current_players = game.current_players - 1) ∧
      (game.current_players - 1 = 0 →
        (∀ g2 ∈ db2.games, g2.id ≠ gameId) ∧
        ((∀ g1 ∈ db.games, g1.room_code = game.room_code → g1.id = gameId) →
          getGame db2 game.room_code = .error .NotFound)) := by
  rw [Option.isSome_iff_exists] at hp
  obtain ⟨pl, hpl⟩ := hp
  simp only [leaveGame, hg, hpl]
  rw [if_neg (not_ne_iff.mpr hw)]
  refine ⟨_, rfl, rfl, ?_, ?_⟩
  · intro g2 hg2 hid
    by_cases hz : game.current_players - 1 = 0
    · rw [if_pos hz] at hg2
      have := (List.mem_filter.mp hg2).2
      simp only [ne_eq, decide_not, Bool.not_eq_eq_eq_not, Bool.not_true,
        decide_eq_false_iff_not] at this
      exact absurd hid this
    · rw [if_neg hz] at hg2
      rw [List.mem_map] at hg2
      obtain ⟨g1, hg1, rfl⟩ := hg2
      by_cases hc : g1.id = gameId
      · rw [if_pos hc]
      · rw [if_neg hc] at hid
        exact absurd hid hc
  · intro hz
    rw [if_pos hz]
    constructor
    · intro g2 hg2
      have := (List.mem_filter.mp hg2).2
      simpa only [ne_eq, decide_not, Bool.not_eq_eq_eq_not, Bool.not_true,
        decide_eq_false_iff_not] using this
    · intro huniq
      have hnone :
          (((db.games.map (fun g =>
              if g.id = gameId then
                { g with current_players := game.current_players - 1 }
              else g)).filter (fun g => g.id ≠ gameId)).find?
            (fun g => g.room_code == game.room_code)) = none := by
        rw [List.find?_eq_none]
        intro g2 hg2
        have hid := (List.mem_filter.mp hg2).2
        simp only [ne_eq, decide_not, Bool.not_eq_eq_eq_not, Bool.not_true,
          decide_eq_false_iff_not] at hid
        have hmem := List.mem_of_mem_filter hg2
        rw [List.mem_map] at hmem
        obtain ⟨g1, hg1, rfl⟩ := hmem
        by_cases hc : g1.id = gameId
        · rw [if_pos hc] at hid ⊢
          exact absurd hc hid
        · rw [if_neg hc] at hid ⊢
          simp only [beq_iff_eq]
          intro hcode
          exact hc (huniq g1 hg1 hcode)
      rw [getGame, hnone]

/-- Witness for C7 at `dbSolo`: the sole player leaves, the game row is
deleted, and `getGame "SOLO01"` then fails `NotFound`. -/
theorem leaveGame_spec_witness :
    ∃ db2, leaveGame dbSolo 1 1 = .ok (true, db2) ∧
      db2.players = dbSolo.players.filter (fun p => p.id ≠ 1) ∧
      (∀ g2 ∈ db2.games, g2.id = 1 →
        g2.current_players =
          (dbSolo.games.get ⟨0, by decide⟩).current_players - 1) ∧
      ((dbSolo.games.get ⟨0, by decide⟩).current_players - 1 = 0 →
        (∀ g2 ∈ db2.games, g2.id ≠ 1) ∧
        ((∀ g1 ∈ dbSolo.games,
            g1.room_code = (dbSolo.games.get ⟨0, by decide⟩).room_code →
              g1.id = 1) →
          getGame db2 (dbSolo.games.get ⟨0, by decide⟩).room_code =
            .error .NotFound)) :=
  leaveGame_spec dbSolo 1 1 (dbSolo.games.get ⟨0, by decide⟩)
    (by decide) (by decide) (by decide)

/-- C2: for an in-progress game with draw_order = k < 5 and k distinct drawn
numbers, `drawNumber` succeeds and returns a DrawEvent with draw_position
k+1 and a drawn_number in [1,50] not among the prior drawn numbers, appends
exactly that number to drawn_numbers, increments draw_order to k+1, and
afterwards draw_order equals the length of drawn_numbers, which is still
duplicate-free. -/
theorem drawNumber_next (db : DB) (gameId randIdx now : Nat) (game : Game)
    (k : Nat)
    (hfind : db.games.find? (fun g => g.id == gameId) = some game)
    (hst : game.status = GameStatus.in_progress)
    (hord : game.draw_order = k) (hk : k < 5)
    (hlen : game.drawn_numbers.length = k) (hnd : game.drawn_numbers.Nodup) :
    ∃ ev db2, drawNumber db gameId randIdx now = .ok (ev, db2) ∧
      ev.draw_position = k + 1 ∧
      1 ≤ ev.drawn_number ∧ ev.drawn_number ≤ 50 ∧
      ev.drawn_number ∉ game.drawn_numbers ∧
      ∃ game2, db2.games.find? (fun g => g.id == gameId) = some game2 ∧
        game2.drawn_numbers = game.drawn_numbers ++ [ev.drawn_number] ∧
        game2.draw_order = k + 1 ∧
        game2.draw_order = game2.drawn_numbers.length ∧
        game2.drawn_numbers.Nodup := by
  have hne := availableNumbers_ne_nil game.drawn_numbers (by omega)
  simp only [drawNumber, hfind]
  rw [if_neg (not_ne_iff.mpr hst)]
  rw [if_neg (show ¬ game.draw_order ≥ 5 by omega)]
  rw [if_neg hne]
  set avail := ((List.range 50).map (fun i => i + 1)).filter
      (fun num => ¬ game.drawn_numbers.contains num) with havail
  have hpos : 0 < avail.length := Nat.pos_of_ne_zero hne
  have hidx : randIdx % avail.length < avail.length := Nat.mod_lt _ hpos
  have hmem : avail.getD (randIdx % avail.length) 0 ∈ avail := by
    rw [List.getD_eq_get avail 0 hidx]
    exact List.get_mem avail _ hidx
  obtain ⟨hx_pool, hx_dec⟩ := List.mem_filter.mp hmem
  have hx_nin : avail.getD (randIdx % avail.length) 0 ∉ game.drawn_numbers := by
    intro hcontra
    exact (of_decide_eq_true hx_dec) (List.elem_iff.mpr hcontra)
  obtain ⟨j, hj, hjx⟩ := List.mem_map.mp hx_pool
  rw [List.mem_range] at hj
  refine ⟨_, _, rfl, ?_, ?_, ?_, hx_nin, ?_⟩
  · show game.draw_order + 1 = k + 1
    omega
  · show 1 ≤ avail.getD (randIdx % avail.length) 0
    omega
  · show avail.getD (randIdx % avail.length) 0 ≤ 50
    omega
  · refine ⟨_, find?_replaceFirstGame db.games gameId _
      (by have hb := List.find?_some hfind; exact hb)
      (by rw [hfind]; rfl), rfl, ?_, ?_, ?_⟩
    · show game.draw_order + 1 = k + 1
      omega
    · show game.draw_order + 1 =
        (game.drawn_numbers ++ [avail.getD (randIdx % avail.length) 0]).length
      rw [List.length_append, List.length_singleton]
      omega
    · show (game.drawn_numbers ++ [avail.getD (randIdx % avail.length) 0]).Nodup
      rw [← List.concat_eq_append]
      exact List.Nodup.concat hx_nin hnd

/-- An in-progress game after 3 draws, used to witness drawNumber's
progression step. -/
def dbThird : DB :=
  { games := [{ id := 1, room_code := "PROG01", status := GameStatus.in_progress,
                max_players := 4, current_players := 2,
                drawn_numbers := [1, 15, 30], draw_order := 3,
                created_at := 0, started_at := some 1, completed_at := none }],
    players := [], draw_events := [],
    nextGameId := 2, nextPlayerId := 1, nextDrawEventId := 1 }

/-- Witness for C2: drawing the 4th number in `dbThird`. -/
theorem drawNumber_next_witness :
    ∃ ev db2, drawNumber dbThird 1 7 9 = .ok (ev, db2) ∧
      ev.draw_position = 3 + 1 ∧
      1 ≤ ev.drawn_number ∧ ev.drawn_number ≤ 50 ∧
      ev.drawn_number ∉ (dbThird.games.get ⟨0, by decide⟩).drawn_numbers ∧
      ∃ game2, db2.games.find? (fun g => g.id == 1) = some game2 ∧
        game2.drawn_numbers =
          (dbThird.games.get ⟨0, by decide⟩).drawn_numbers ++ [ev.drawn_number] ∧
        game2.draw_order = 3 + 1 ∧
        game2.draw_order = game2.drawn_numbers.length ∧
        game2.drawn_numbers.Nodup :=
  drawNumber_next dbThird 1 7 9 (dbThird.games.get ⟨0, by decide⟩) 3
    (by decide) (by decide) (by decide) (by decide) (by decide) (by decide)

/-- C1: a successful `drawNumber` on an in-progress game with draw_order = 4
completes the game (status completed, non-null completed_at) and, among the
game's players — all with 5 selected numbers and is_winner still false —
sets is_winner = true exactly for those whose every selected number is in
the final drawn set, leaving every other player's is_winner false; players
of other games are untouched. -/
theorem drawNumber_fifth (db : DB) (gameId randIdx now : Nat) (game : Game)
    (ev : DrawEvent) (db2 : DB)
    (hfind : db.games.find? (fun g => g.id == gameId) = some game)
    (hst : game.status = GameStatus.in_progress)
    (hord : game.draw_order = 4)
    (hwin0 : ∀ p ∈ db.players, p.game_id = gameId → p.is_winner = false)
    (hsel5 : ∀ p ∈ db.players, p.game_id = gameId →
      p.selected_numbers.length = 5)
    (hok : drawNumber db gameId randIdx now = .ok (ev, db2)) :
    ∃ game2, db2.games.find? (fun g => g.id == gameId) = some game2 ∧
      game2.status = GameStatus.completed ∧
      game2.completed_at = some now ∧
      game2.drawn_numbers = game.drawn_numbers ++ [ev.drawn_number] ∧
      db2.players.length = db.players.length ∧
      (∀ i (h1 : i < db.players.length) (h2 : i < db2.players.length),
        ((db.players.get ⟨i, h1⟩).game_id = gameId →
          ((db2.players.get ⟨i, h2⟩).is_winner = true ↔
            (db.players.get ⟨i, h1⟩).selected_numbers.all
              (fun num => game2.drawn_numbers.contains num) = true)) ∧
        ((db.players.get ⟨i, h1⟩).game_id ≠ gameId →
          db2.players.get ⟨i, h2⟩ = db.players.get ⟨i, h1⟩)) := by
  simp only [drawNumber, hfind] at hok
  rw [if_neg (not_ne_iff.mpr hst)] at hok
  rw [if_neg (show ¬ game.draw_order ≥ 5 by omega)] at hok
  by_cases hne : (((List.range 50).map (fun i => i + 1)).filter
      (fun num => ¬ game.drawn_numbers.contains num)).length = 0
  · rw [if_pos hne] at hok
    exact absurd hok (by simp)
  · rw [if_neg hne] at hok
    set x := (((List.range 50).map (fun i => i + 1)).filter
      (fun num => ¬ game.drawn_numbers.contains num)).getD
      (randIdx % (((List.range 50).map (fun i => i + 1)).filter
        (fun num => ¬ game.drawn_numbers.contains num)).length) 0 with hxdef
    rw [Except.ok.injEq, Prod.mk.injEq] at hok
    obtain ⟨hev, hdb⟩ := hok
    subst hev hdb
    have h5 : game.draw_order + 1 = 5 := by omega
    refine ⟨_, find?_replaceFirstGame db.games gameId _
      (by have hb := List.find?_some hfind; exact hb)
      (by rw [hfind]; rfl), ?_, ?_, rfl, List.length_map _ _, ?_⟩
    · show (if game.draw_order + 1 = 5 then GameStatus.completed
        else game.status) = GameStatus.completed
      rw [if_pos h5]
    · show (if game.draw_order + 1 = 5 then some now
        else game.completed_at) = some now
      rw [if_pos h5]
    · intro i h1 h2
      rw [List.get_map]
      by_cases hc : game.draw_order + 1 = 5 ∧
          (db.players.get ⟨i, h1⟩).game_id = gameId ∧
          ((db.players.get ⟨i, h1⟩).selected_numbers.all
            (fun num => (game.drawn_numbers ++ [x]).contains num)) = true
      · rw [if_pos hc]
        exact ⟨fun _ => ⟨fun _ => hc.2.2, fun _ => rfl⟩,
          fun hne2 => absurd hc.2.1 hne2⟩
      · rw [if_neg hc]
        refine ⟨fun hgid => ?_, fun _ => rfl⟩
        have hpw := hwin0 _ (List.get_mem db.players i h1) hgid
        constructor
        · intro hw
          rw [hpw] at hw
          cases hw
        · intro hall
          exact absurd ⟨h5, hgid, hall⟩ hc

/-- An in-progress game before its 5th draw: drawn [5,10,15,20]; one player
needs 25 to win, the other cannot win.  Pool index 20 selects number 25. -/
def dbFourth : DB :=
  { games := [{ id := 1, room_code := "FIFTH1", status := GameStatus.in_progress,
                max_players := 4, current_players := 2,
                drawn_numbers := [5, 10, 15, 20], draw_order := 4,
                created_at := 0, started_at := some 1, completed_at := none }],
    players :=
      [{ id := 1, game_id := 1, player_name := "Winner",
         selected_numbers := [5, 10, 15, 20, 25], is_winner := false,
         joined_at := 1 },
       { id := 2, game_id := 1, player_name := "Loser",
         selected_numbers := [1, 2, 3, 4, 6], is_winner := false,
         joined_at := 2 }],
    draw_events := [], nextGameId := 2, nextPlayerId := 3, nextDrawEventId := 1 }

/-- Witness for C1: the 5th draw in `dbFourth` completes the game and marks
exactly the exact-match player as winner. -/
theorem drawNumber_fifth_witness :
    ∃ ev db2, drawNumber dbFourth 1 20 99 = .ok (ev, db2) ∧
      ∃ game2, db2.games.find? (fun g => g.id == 1) = some game2 ∧
        game2.status = GameStatus.completed ∧
        game2.completed_at = some 99 ∧
        game2.drawn_numbers =
          (dbFourth.games.get ⟨0, by decide⟩).drawn_numbers ++
            [ev.drawn_number] ∧
        db2.players.length = dbFourth.players.length ∧
        (∀ i (h1 : i < dbFourth.players.length) (h2 : i < db2.players.length),
          ((dbFourth.players.get ⟨i, h1⟩).game_id = 1 →
            ((db2.players.get ⟨i, h2⟩).is_winner = true ↔
              (dbFourth.players.get ⟨i, h1⟩).selected_numbers.all
                (fun num => game2.drawn_numbers.contains num) = true)) ∧
          ((dbFourth.players.get ⟨i, h1⟩).game_id ≠ 1 →
            db2.players.get ⟨i, h2⟩ = dbFourth.players.get ⟨i, h1⟩)) :=
  ⟨_, _, rfl,
    drawNumber_fifth dbFourth 1 20 99 (dbFourth.games.get ⟨0, by decide⟩) _ _
      (by decide) (by decide) (by decide) (by decide) (by decide) rfl⟩

/-- C10: any successful `drawNumber` only ever turns is_winner from false to
true, never from true to false — positionwise, each player either stays
identical or has only its is_winner flag raised — and players of other games
are never modified. -/
theorem drawNumber_winner_monotone (db : DB) (gameId randIdx now : Nat)
    (ev : DrawEvent) (db2 : DB)
    (hok : drawNumber db gameId randIdx now = .ok (ev, db2)) :
    db2.players.length = db.players.length ∧
    ∀ i (h1 : i < db.players.length) (h2 : i < db2.players.length),
      ((db.players.get ⟨i, h1⟩).is_winner = true →
        (db2.players.get ⟨i, h2⟩).is_winner = true) ∧
      ((db.players.get ⟨i, h1⟩).game_id ≠ gameId →
        db2.players.get ⟨i, h2⟩ = db.players.get ⟨i, h1⟩) ∧
      (db2.players.get ⟨i, h2⟩ = db.players.get ⟨i, h1⟩ ∨
        db2.players.get ⟨i, h2⟩ =
          { db.players.get ⟨i, h1⟩ with is_winner := true }) := by
  simp only [drawNumber] at hok
  rcases hfind : db.games.find? (fun g => g.id == gameId) with _ | game
  · rw [hfind] at hok
    exact absurd hok (by simp)
  · simp only [hfind] at hok
    by_cases hst : game.status ≠ GameStatus.in_progress
    · rw [if_pos hst] at hok
      exact absurd hok (by simp)
    · rw [if_neg hst] at hok
      by_cases hord5 : game.draw_order ≥ 5
      · rw [if_pos hord5] at hok
        exact absurd hok (by simp)
      · rw [if_neg hord5] at hok
        by_cases hne : (((List.range 50).map (fun i => i + 1)).filter
            (fun num => ¬ game.drawn_numbers.contains num)).length = 0
        · rw [if_pos hne] at hok
          exact absurd hok (by simp)
        · rw [if_neg hne] at hok
          set x := (((List.range 50).map (fun i => i + 1)).filter
            (fun num => ¬ game.drawn_numbers.contains num)).getD
            (randIdx % (((List.range 50).map (fun i => i + 1)).filter
              (fun num => ¬ game.drawn_numbers.contains num)).length) 0
            with hxdef
          rw [Except.ok.injEq, Prod.mk.injEq] at hok
          obtain ⟨hev, hdb⟩ := hok
          subst hev hdb
          refine ⟨List.length_map _ _, ?_⟩
          intro i h1 h2
          rw [List.get_map]
          by_cases hc : game.draw_order + 1 = 5 ∧
              (db.players.get ⟨i, h1⟩).game_id = gameId ∧
              ((db.players.get ⟨i, h1⟩).selected_numbers.all
                (fun num => (game.drawn_numbers ++ [x]).contains num)) = true
          · rw [if_pos hc]
            exact ⟨fun _ => rfl, fun hne2 => absurd hc.2.1 hne2, Or.inr rfl⟩
          · rw [if_neg hc]
            exact ⟨fun h => h, fun _ => rfl, Or.inl rfl⟩

/-- The 5th-draw situation with a player of a different game already marked
winner: it must stay winner and untouched. -/
def dbMono : DB :=
  { games := [{ id := 1, room_code := "MONO01", status := GameStatus.in_progress,
                max_players := 4, current_players := 1,
                drawn_numbers := [5, 10, 15, 20], draw_order := 4,
                created_at := 0, started_at := some 1, completed_at := none },
              { id := 2, room_code := "MONO02", status := GameStatus.completed,
                max_players := 4, current_players := 1,
                drawn_numbers := [1, 2, 3, 4, 6], draw_order := 5,
                created_at := 0, started_at := some 1, completed_at := some 2 }],
    players :=
      [{ id := 1, game_id := 1, player_name := "P1",
         selected_numbers := [5, 10, 15, 20, 25], is_winner := false,
         joined_at := 1 },
       { id := 2, game_id := 2, player_name := "Q1",
         selected_numbers := [1, 2, 3, 4, 6], is_winner := true,
         joined_at := 1 }],
    draw_events := [], nextGameId := 3, nextPlayerId := 3, nextDrawEventId := 1 }

/-- Witness for C10: drawing the 5th number of game 1 in `dbMono` keeps the
already-won player of game 2 intact. -/
theorem drawNumber_winner_monotone_witness :
    ∃ ev db2, drawNumber dbMono 1 20 99 = .ok (ev, db2) ∧
      (db2.players.length = dbMono.players.length ∧
       ∀ i (h1 : i < dbMono.players.length) (h2 : i < db2.players.length),
        ((dbMono.players.get ⟨i, h1⟩).is_winner = true →
          (db2.players.get ⟨i, h2⟩).is_winner = true) ∧
        ((dbMono.players.get ⟨i, h1⟩).game_id ≠ 1 →
          db2.players.get ⟨i, h2⟩ = dbMono.players.get ⟨i, h1⟩) ∧
        (db2.players.get ⟨i, h2⟩ = dbMono.players.get ⟨i, h1⟩ ∨
          db2.players.get ⟨i, h2⟩ =
            { dbMono.players.get ⟨i, h1⟩ with is_winner := true })) :=
  ⟨_, _, rfl, drawNumber_winner_monotone dbMono 1 20 99 _ _ rfl⟩

/-- Witness for C4 at concrete inputs: duplicate code ROOM01 is rejected with
the store unchanged, and fresh code NEW123 yields a correctly initialized
game. -/
theorem createGame_spec_witness :
    (createGame dbRoom "ROOM01" 10 5 = (.error .DuplicateRoomCode, dbRoom)) ∧
    (∃ game db2, createGame dbRoom "NEW123" 10 5 = (.ok game, db2) ∧
      game.status = GameStatus.waiting ∧ game.current_players = 0 ∧
      game.drawn_numbers = [] ∧ game.draw_order = 0 ∧
      game.started_at = none ∧ game.completed_at = none ∧
      db2.games = dbRoom.games ++ [game]) :=
  ⟨(createGame_spec dbRoom "ROOM01" 10 5).1 (by decide),
   (createGame_spec dbRoom "NEW123" 10 5).2 (by decide)⟩

end Lotto
